import Mathlib

/-
Shallow embedding of `src/app.py` (weather_automation).

The program is a sequential CLI pipeline: validate an ICAO code, fetch a
METAR report (plain text over HTTP), fetch a TAF forecast (XML over HTTP),
decode the METAR, print, and post a summary to a Slack webhook.

External effects are modelled explicitly:
  * an HTTP exchange is a `NetResult` oracle value (`ok body` = a 2xx
    response whose text is `body`; `err` = any
    `requests.exceptions.RequestException`, which includes what
    `raise_for_status()` throws on a non-2xx status, timeouts and DNS
    failures);
  * `xml.etree.ElementTree.fromstring` is an oracle
    `String -> Option Xml` (`none` = `ET.ParseError`);
  * the third-party `metar` library call `Metar(m).string()` is an oracle
    `String -> Option String` (`none` = any exception);
  * whether a function performed a network request is returned as an
    explicit `Bool` component;
  * a Python exception escaping a function is an `Except PyExn` value.
-/

/-- Python `str.strip()` whitespace test for the ASCII whitespace characters
(space, tab, newline, carriage return, vertical tab, form feed). -/
def pyIsSpace (c : Char) : Bool :=
  c == ' ' || c == '\t' || c == '\n' || c == '\r' || c == '\x0b' || c == '\x0c'

/-- Python `str.strip()`: remove leading and trailing whitespace. -/
def pyStrip (s : String) : String :=
  ⟨((s.data.dropWhile pyIsSpace).reverse.dropWhile pyIsSpace).reverse⟩

/-- Python `str.upper()` restricted to the ASCII letters that appear in the
program's inputs. -/
def pyUpper (s : String) : String :=
  ⟨s.data.map Char.toUpper⟩

/-- Membership in the regex character class `[A-Z]` (ASCII uppercase). -/
def isUpperAZ (c : Char) : Bool :=
  decide ('A' ≤ c) && decide (c ≤ 'Z')

/-- Embeds `is_valid_icao` (src/app.py line 19):
`bool(re.match(r"^[A-Z]{4}$", icao))`.

Python `re.match` anchors at the start of the string, and the `$` anchor
(without `re.MULTILINE`) matches at the end of the string or just before a
newline that ends the string.  So the regex accepts exactly: four `[A-Z]`
characters, optionally followed by one final newline character. -/
def is_valid_icao (s : String) : Bool :=
  match s.data with
  | [a, b, c, d] => isUpperAZ a && (isUpperAZ b && (isUpperAZ c && isUpperAZ d))
  | [a, b, c, d, e] =>
      isUpperAZ a && (isUpperAZ b && (isUpperAZ c && (isUpperAZ d && (e == '\n'))))
  | _ => false

/-- Outcome of one `requests.get` / `requests.post` exchange:
`ok body` is a 2xx response with text `body` (so `raise_for_status()` does
not throw); `err` is any `requests.exceptions.RequestException`. -/
inductive NetResult where
  | ok (body : String)
  | err
deriving DecidableEq

/-- Embeds `get_metar` (src/app.py lines 23-37).  The second component
records whether `requests.get` was executed.  The function is total: the
Python code catches every `RequestException` and never raises. -/
def getMetar (net : NetResult) (icao : String) : String × Bool :=
  if is_valid_icao icao then
    match net with
    | NetResult.ok body =>
        (if pyStrip body = "" then "METAR data not available (empty response)."
         else pyStrip body, true)
    | NetResult.err => ("METAR data not available (network error).", true)
  else ("Invalid ICAO code.", false)

/-- Python substring test `p in t`, on character lists (prefix helper). -/
def isPrefixL : List Char → List Char → Bool
  | [], _ => true
  | _ :: _, [] => false
  | p :: ps, t :: ts => p == t && isPrefixL ps ts

/-- Python substring test `p in t`, on character lists. -/
def containsL (p : List Char) : List Char → Bool
  | [] => isPrefixL p []
  | c :: r => isPrefixL p (c :: r) || containsL p r

/-- Python operator `sub in s` on strings. -/
def strContains (s sub : String) : Bool :=
  containsL sub.data s.data

/-- Embeds the guard on src/app.py line 41:
`"METAR data not available." in metar or "Invalid ICAO code." in metar`. -/
def metarGuardHit (s : String) : Bool :=
  strContains s "METAR data not available." || strContains s "Invalid ICAO code."

/-- Embeds `decode_metar` (src/app.py lines 39-48).  `dec` is the oracle for
the third-party call `Metar(metar).string()`; `none` models any exception,
which the code catches, turning it into the fixed error string. -/
def decodeMetar (dec : String → Option String) (metar : String) : String :=
  if metarGuardHit metar then metar
  else
    match dec metar with
    | some t => t
    | none => "Error decoding METAR."

/-- ElementTree element: a tag, an optional text payload (`.text` is `None`
in Python when the element holds no text, modelled as `none`), and a list of
child elements in document order. -/
inductive Xml where
  | elem (tag : String) (text : Option String) (children : List Xml)

def Xml.tag : Xml → String
  | .elem t _ _ => t

def Xml.text : Xml → Option String
  | .elem _ x _ => x

def Xml.children : Xml → List Xml
  | .elem _ _ cs => cs

/-- All elements of a forest in document (preorder) order: each root, then
its descendants, then the rest of the forest. -/
def allForest : List Xml → List Xml
  | [] => []
  | Xml.elem t x cs :: r => Xml.elem t x cs :: (allForest cs ++ allForest r)

/-- Proper descendants of an element in document order: what the ElementPath
step `.//` enumerates (`elem.iter(tag)` minus the element itself). -/
def descendantsOf (root : Xml) : List Xml :=
  allForest root.children

def isTaf (e : Xml) : Bool :=
  Xml.tag e == "TAF"

/-- Children of `e` whose tag is `text`: the ElementPath child step `/text`. -/
def textChildren (e : Xml) : List Xml :=
  (Xml.children e).filter (fun c => Xml.tag c == "text")

def flatMapL (f : Xml → List Xml) : List Xml → List Xml
  | [] => []
  | c :: r => f c ++ flatMapL f r

/-- Embeds `root.findall(".//TAF/text")` (src/app.py line 61): every proper
descendant of `root` tagged `TAF`, in document order, contributes its
children tagged `text`, in order. -/
def tafTextNodes (root : Xml) : List Xml :=
  flatMapL textChildren ((descendantsOf root).filter isTaf)

/-- Python exceptions that can escape a function in this program. -/
inductive PyExn where
  | typeError
deriving DecidableEq

/-- Python `"\n".join(l)` over a list that may contain `None`: `some` of the
joined string when every item is a string, `none` when some item is `None`
(in which case `str.join` raises `TypeError`). -/
def seqOptions : List (Option String) → Option (List String)
  | [] => some []
  | none :: _ => none
  | some s :: rest => (seqOptions rest).map (fun l => s :: l)

/-- Embeds `get_taf` (src/app.py lines 50-65).  `parse` is the oracle for
`ET.fromstring` (`none` = `ET.ParseError`, which the code catches together
with `RequestException`).  The `Except` result records that the `TypeError`
raised by `"\n".join` on a `None` item is NOT caught by the
`except (RequestException, ET.ParseError)` clause and escapes.  The second
component records whether `requests.get` was executed. -/
def getTaf (net : NetResult) (parse : String → Option Xml) (icao : String) :
    Except PyExn String × Bool :=
  if is_valid_icao icao then
    match net with
    | NetResult.ok body =>
        if pyStrip body = "" then
          (Except.ok "TAF data not available (empty response).", true)
        else
          match parse body with
          | some root =>
              let ts := (tafTextNodes root).map Xml.text
              if ts = [] then (Except.ok "TAF data not available.", true)
              else
                match seqOptions ts with
                | some strs => (Except.ok (String.intercalate "\n" strs), true)
                | none => (Except.error PyExn.typeError, true)
          | none => (Except.ok "TAF data not available.", true)
    | NetResult.err => (Except.ok "TAF data not available.", true)
  else (Except.ok "Invalid ICAO code.", false)

/-- The weather-brief record: the `message` dict built in
`get_weather_brief` (src/app.py lines 121-125). -/
structure Brief where
  metar : String
  taf : String
  decoded_metar : String
deriving DecidableEq

/-- Observable outcome of `send_to_slack`: the primary text of the payload
POSTed to the webhook (`none` when no HTTP request was made at all), and how
many error / info records were logged. -/
structure SlackEffects where
  posted : Option String
  errorLogs : Nat
  infoLogs : Nat
deriving DecidableEq

/-- Primary `"text"` field of the Slack payload (src/app.py lines 71-74). -/
def slackText (m : Brief) (icao : String) : String :=
  "*Weather Brief for " ++ pyUpper icao ++ "* :airplane: \n\n" ++
  "*METAR* :bar_chart: \n" ++ m.metar ++ "\n\n" ++
  "*TAF* :cloud_with_rain: \n" ++ m.taf ++ "\n\n" ++
  "*Decoded METAR* :book: \n" ++ m.decoded_metar

/-- Embeds `send_to_slack` (src/app.py lines 67-111).  `webhook` is the
module-level `SLACK_WEBHOOK_URL` read from the environment; `net` is the
oracle for the `requests.post` exchange.  The function is total: both the
missing-webhook branch and the `RequestException` branch only log. -/
def sendToSlack (webhook : Option String) (net : NetResult) (m : Brief)
    (icao : String) : SlackEffects :=
  match webhook with
  | some _ =>
      match net with
      | NetResult.ok _ => ⟨some (slackText m icao), 0, 1⟩
      | NetResult.err => ⟨some (slackText m icao), 1, 0⟩
  | none => ⟨none, 1, 0⟩

/-- Embeds `get_weather_brief` (src/app.py lines 113-133) composed over the
oracles of its stages.  The only statement in the body that can raise is the
call to `get_taf` (see `getTaf`); every other stage is total.  An
`Except.error` value models the exception reaching the top level of the
script, which then exits with a traceback (non-zero status); `Except.ok`
models the run completing normally (exit status 0). -/
def getWeatherBrief (webhook : Option String) (metarNet tafNet : NetResult)
    (parse : String → Option Xml) (dec : String → Option String)
    (slackNet : NetResult) (icao : String) : Except PyExn (Brief × SlackEffects) :=
  let metar := (getMetar metarNet icao).1
  match (getTaf tafNet parse icao).1 with
  | Except.error e => Except.error e
  | Except.ok taf =>
      let decoded := decodeMetar dec metar
      let message : Brief := ⟨metar, taf, decoded⟩
      Except.ok (message, sendToSlack webhook slackNet message icao)

/-- Module-level configuration: the one global the components read
(`SLACK_WEBHOOK_URL`, set once at import from the environment).  No function
in the module assigns any global. -/
structure AppEnv where
  slackWebhookUrl : Option String
deriving DecidableEq

/-- One invocation of a component, together with the oracle values for the
external effects it may perform. -/
inductive Call where
  | validate (s : String)
  | metar (net : NetResult) (icao : String)
  | taf (net : NetResult) (parse : String → Option Xml) (icao : String)
  | decode (dec : String → Option String) (m : String)
  | slack (net : NetResult) (m : Brief) (icao : String)

/-- Result of one component invocation. -/
inductive CallResult where
  | vr (b : Bool)
  | mr (r : String × Bool)
  | tr (r : Except PyExn String × Bool)
  | dr (s : String)
  | sr (e : SlackEffects)

/-- Execute one component against the module state.  Translated from the
source: every component only reads `AppEnv` (only `send_to_slack` reads
`SLACK_WEBHOOK_URL`); none assigns a global, so the state passes through
unchanged. -/
def execCall (env : AppEnv) : Call → CallResult × AppEnv
  | Call.validate s => (CallResult.vr (is_valid_icao s), env)
  | Call.metar net icao => (CallResult.mr (getMetar net icao), env)
  | Call.taf net parse icao => (CallResult.tr (getTaf net parse icao), env)
  | Call.decode dec m => (CallResult.dr (decodeMetar dec m), env)
  | Call.slack net m icao => (CallResult.sr (sendToSlack env.slackWebhookUrl net m icao), env)

/-- Execute a sequence of component invocations, threading the module
state. -/
def execCalls (env : AppEnv) : List Call → List CallResult × AppEnv
  | [] => ([], env)
  | c :: r =>
      ((execCall env c).1 :: (execCalls (execCall env c).2 r).1,
       (execCalls (execCall env c).2 r).2)

/-- Specification-side predicate for the validator, following the spec text
amended by the Python `$` semantics: exactly four uppercase ASCII letters,
optionally followed by a single trailing newline. -/
def icaoAmended (s : String) : Prop :=
  (s.data.length = 4 ∧ ∀ c ∈ s.data, isUpperAZ c = true) ∨
  (s.data.length = 5 ∧ (∀ c ∈ s.data.take 4, isUpperAZ c = true) ∧
    s.data.drop 4 = ['\n'])

instance (s : String) : Decidable (icaoAmended s) := by
  unfold icaoAmended; infer_instance

/-- No element anywhere in the forest is tagged `TAF`. -/
def noTafForest : List Xml → Bool
  | [] => true
  | Xml.elem t _ cs :: r => !(t == "TAF") && noTafForest cs && noTafForest r

/-- No `TAF` element of the forest has a `TAF` element strictly below it. -/
def cleanForest : List Xml → Bool
  | [] => true
  | Xml.elem t _ cs :: r =>
      (if t == "TAF" then noTafForest cs else cleanForest cs) && cleanForest r

/-- Specification-side reading of the path `.//TAF/text`: the elements of
the forest, in document (preorder) order, whose tag is `text` and whose
parent is tagged `TAF`; `ptag` is the tag of the forest's parent. -/
def docForest (ptag : String) : List Xml → List Xml
  | [] => []
  | Xml.elem t x cs :: r =>
      (if ptag == "TAF" && t == "text" then [Xml.elem t x cs] else []) ++
      (docForest t cs ++ docForest ptag r)

/-- Document-order `TAF/text` nodes of a whole document. -/
def docNodes (root : Xml) : List Xml :=
  docForest (Xml.tag root) (Xml.children root)

def exceptOk : Except PyExn String → Bool
  | Except.ok _ => true
  | Except.error _ => false

/-- A well-formed TAF response whose second matched `TAF/text` node carries
no text, as ElementTree produces for `<text/>`. -/
def cexTree : Xml :=
  Xml.elem "response" none
    [Xml.elem "TAF" none
      [Xml.elem "text" (some "TAF KJFK 211720Z 2118/2224") [],
       Xml.elem "text" none []]]

/-- A well-formed TAF response with two sibling `TAF` elements, each with a
`text` child carrying text, plus unrelated elements. -/
def okTree : Xml :=
  Xml.elem "response" none
    [Xml.elem "data" none
      [Xml.elem "TAF" none
        [Xml.elem "raw_text" (some "ignored") [],
         Xml.elem "text" (some "TAF KJFK 211720Z 2118/2224") []],
       Xml.elem "TAF" none
        [Xml.elem "text" (some "TAF KLGA 211730Z 2118/2224") []]]]

/-- Structural induction principle for forests of `Xml` elements. -/
theorem forestRec (P : List Xml → Prop) (hnil : P [])
    (hcons : ∀ t x cs r, P cs → P r → P (Xml.elem t x cs :: r)) :
    ∀ l : List Xml, P l
  | [] => hnil
  | Xml.elem t x cs :: r => hcons t x cs r (forestRec P hnil hcons cs) (forestRec P hnil hcons r)

/-- Claim C2 counterexample: the validator accepts the five-character string
of four uppercase letters followed by a newline, although the claim says any
length other than 4 — in particular a trailing newline — is rejected.
Python's `$` anchor also matches just before a trailing newline. -/
theorem is_valid_icao_newline_cex :
    is_valid_icao "ABCD\n" = true ∧ "ABCD\n".data.length ≠ 4 := by
  constructor
  · decide
  · decide

/-- Claim C2 (amended): `is_valid_icao` returns true exactly for strings of
four uppercase ASCII letters, optionally followed by one trailing newline
character. -/
theorem is_valid_icao_characterization (s : String) :
    is_valid_icao s = true ↔ icaoAmended s := by
  obtain ⟨l⟩ := s
  rcases l with _ | ⟨a, _ | ⟨b, _ | ⟨c, _ | ⟨d, _ | ⟨e, _ | ⟨f, r⟩⟩⟩⟩⟩⟩ <;>
    simp [is_valid_icao, icaoAmended, List.forall_mem_cons, and_assoc]

/-- Claim C1 (code bug): the decoder guard searches for the substring
`"METAR data not available."`, which does not occur in either actual
placeholder produced by `get_metar` — `"METAR data not available (empty
response)."` and `"METAR data not available (network error)."`.  Those two
placeholders therefore are NOT passed through unchanged: the code attempts a
real decode and (the `metar` library rejecting such text) returns
`"Error decoding METAR."`.  Only `"Invalid ICAO code."` passes through. -/
theorem decode_metar_placeholder_bug (dec : String → Option String)
    (h1 : dec "METAR data not available (empty response)." = none)
    (h2 : dec "METAR data not available (network error)." = none) :
    metarGuardHit "METAR data not available (empty response)." = false ∧
    metarGuardHit "METAR data not available (network error)." = false ∧
    decodeMetar dec "METAR data not available (empty response)." =
      "Error decoding METAR." ∧
    decodeMetar dec "METAR data not available (network error)." =
      "Error decoding METAR." ∧
    decodeMetar dec "Invalid ICAO code." = "Invalid ICAO code." := by
  refine ⟨by decide, by decide, ?_, ?_, ?_⟩
  · rw [decodeMetar, if_neg (by decide), h1]
  · rw [decodeMetar, if_neg (by decide), h2]
  · rw [decodeMetar, if_pos (by decide)]

theorem decode_metar_placeholder_bug_w :
    decodeMetar (fun _ => none) "METAR data not available (empty response)." =
      "Error decoding METAR." :=
  (decode_metar_placeholder_bug (fun _ => none) rfl rfl).2.2.1

/-- Claim C4: a string the validator rejects makes both fetchers return the
placeholder `"Invalid ICAO code."` immediately, with no network request
performed (second component `false`), whatever the network would have
answered. -/
theorem invalid_icao_short_circuits (icao : String)
    (h : is_valid_icao icao = false) :
    (∀ net, getMetar net icao = ("Invalid ICAO code.", false)) ∧
    (∀ net parse, getTaf net parse icao = (Except.ok "Invalid ICAO code.", false)) := by
  constructor <;> intros <;> simp [getMetar, getTaf, h]

theorem invalid_icao_short_circuits_w :
    getMetar NetResult.err "kjfk" = ("Invalid ICAO code.", false) ∧
    getTaf NetResult.err (fun _ => none) "kjfk" =
      (Except.ok "Invalid ICAO code.", false) :=
  ⟨(invalid_icao_short_circuits "kjfk" (by decide)).1 NetResult.err,
   (invalid_icao_short_circuits "kjfk" (by decide)).2 NetResult.err (fun _ => none)⟩

/-- Claim C5: for a valid ICAO code, `get_metar` performs the request and
returns the stripped body when it is non-empty after stripping, the
empty-response placeholder when the body strips to the empty string, and the
network-error placeholder on any `RequestException` (timeout, DNS failure,
non-2xx status via `raise_for_status`).  Totality of `getMetar` embeds
"never raises to the caller". -/
theorem get_metar_valid_behaviour (icao body : String)
    (h : is_valid_icao icao = true) :
    getMetar (NetResult.ok body) icao =
      ((if pyStrip body = "" then "METAR data not available (empty response)."
        else pyStrip body), true) ∧
    getMetar NetResult.err icao =
      ("METAR data not available (network error).", true) := by
  constructor <;> simp [getMetar, h]

theorem get_metar_valid_behaviour_w :
    getMetar (NetResult.ok " KJFK 211951Z 18004KT 10SM FEW250 ") "KJFK" =
      ("KJFK 211951Z 18004KT 10SM FEW250", true) ∧
    getMetar (NetResult.ok "  ") "KJFK" =
      ("METAR data not available (empty response).", true) ∧
    getMetar NetResult.err "KJFK" =
      ("METAR data not available (network error).", true) := by
  have h1 := get_metar_valid_behaviour "KJFK" " KJFK 211951Z 18004KT 10SM FEW250 "
    (by decide)
  have h2 := get_metar_valid_behaviour "KJFK" "  " (by decide)
  refine ⟨?_, ?_, h1.2⟩
  · rw [h1.1]; decide
  · rw [h2.1]; decide

/-- Claim C7: with the webhook variable unset, `send_to_slack` performs no
HTTP POST (`posted = none`, independent of the network oracle), logs exactly
one error record and nothing else, and returns normally (the function is
total). -/
theorem slack_no_webhook_no_post (net : NetResult) (m : Brief) (icao : String) :
    sendToSlack none net m icao = ⟨none, 1, 0⟩ := rfl

/-- Claim C10: the decoder's placeholder detection is a substring test: any
input containing `"METAR data not available."` or `"Invalid ICAO code."`
anywhere is returned unchanged, with no decode attempted. -/
theorem decode_metar_substring_passthrough (dec : String → Option String)
    (s : String)
    (h : strContains s "METAR data not available." = true ∨
         strContains s "Invalid ICAO code." = true) :
    decodeMetar dec s = s := by
  have hg : metarGuardHit s = true := by
    rcases h with h | h <;> simp [metarGuardHit, h]
  rw [decodeMetar, if_pos hg]

theorem decode_metar_substring_passthrough_w :
    decodeMetar (fun _ => none)
      "KJFK 211951Z 18004KT RMK Invalid ICAO code. AO2" =
      "KJFK 211951Z 18004KT RMK Invalid ICAO code. AO2" :=
  decode_metar_substring_passthrough (fun _ => none) _ (Or.inr (by decide))

/-- Claim C3 counterexample: the parse-failure placeholder and the
no-matching-nodes placeholder of `get_taf` are the same string,
`"TAF data not available."`, so the three failure placeholders are not
pairwise distinct. -/
theorem taf_placeholder_collision_cex :
    (getTaf (NetResult.ok "this is not xml") (fun _ => none) "KJFK").1 =
      Except.ok "TAF data not available." ∧
    (getTaf (NetResult.ok "<response></response>")
      (fun _ => some (Xml.elem "response" none [])) "KJFK").1 =
      Except.ok "TAF data not available." := by
  have hv : is_valid_icao "KJFK" = true := by decide
  constructor
  · rw [getTaf, if_pos hv]
    rw [if_neg (by decide)]
  · rw [getTaf, if_pos hv]
    rw [if_neg (by decide)]
    simp [tafTextNodes, descendantsOf, allForest, flatMapL, Xml.children]

/-- Claim C3 (amended): for a valid ICAO code the three failure shapes of
`get_taf` each yield a placeholder — empty body yields
`"TAF data not available (empty response)."`, while an `ET.ParseError` and a
well-formed document with no `.//TAF/text` match both yield
`"TAF data not available."` — so only two distinct placeholder strings
exist, the empty-response one differing from the shared one. -/
theorem taf_failure_placeholders (icao body : String)
    (parse : String → Option Xml) (tree : Xml)
    (h : is_valid_icao icao = true) :
    (pyStrip body = "" →
      (getTaf (NetResult.ok body) parse icao).1 =
        Except.ok "TAF data not available (empty response).") ∧
    (pyStrip body ≠ "" → parse body = none →
      (getTaf (NetResult.ok body) parse icao).1 =
        Except.ok "TAF data not available.") ∧
    (pyStrip body ≠ "" → parse body = some tree → tafTextNodes tree = [] →
      (getTaf (NetResult.ok body) parse icao).1 =
        Except.ok "TAF data not available.") ∧
    "TAF data not available (empty response)." ≠ "TAF data not available." := by
  refine ⟨?_, ?_, ?_, by decide⟩
  · intro hb
    rw [getTaf, if_pos h, if_pos hb]
  · intro hb hp
    rw [getTaf, if_pos h, if_neg hb, hp]
  · intro hb hp ht
    rw [getTaf, if_pos h, if_neg hb, hp]
    simp [ht]

theorem taf_failure_placeholders_w :
    (getTaf (NetResult.ok "   ") (fun _ => none) "KJFK").1 =
      Except.ok "TAF data not available (empty response)." ∧
    (getTaf (NetResult.ok "oops") (fun _ => none) "KJFK").1 =
      Except.ok "TAF data not available." := by
  have h1 := taf_failure_placeholders "KJFK" "   " (fun _ => none)
    (Xml.elem "response" none []) (by decide)
  have h2 := taf_failure_placeholders "KJFK" "oops" (fun _ => none)
    (Xml.elem "response" none []) (by decide)
  exact ⟨h1.1 (by decide), h2.2.1 (by decide) rfl⟩

theorem flatMapL_append (f : Xml → List Xml) (l1 l2 : List Xml) :
    flatMapL f (l1 ++ l2) = flatMapL f l1 ++ flatMapL f l2 := by
  induction l1 with
  | nil => simp [flatMapL]
  | cons c r ih => simp [flatMapL, ih]

theorem docForest_nil_of_noTaf (l : List Xml) :
    noTafForest l = true → ∀ ptag, (ptag == "TAF") = false →
      docForest ptag l = [] := by
  induction l using forestRec with
  | hnil => intro _ ptag _; simp [docForest]
  | hcons t x cs r ihc ihr =>
    intro h ptag hp
    rw [noTafForest] at h
    simp only [Bool.and_eq_true, Bool.not_eq_true'] at h
    rw [docForest, hp]
    simp only [Bool.false_and, Bool.false_eq_true, if_false]
    rw [ihc h.1.2 t h.1.1, ihr h.2 ptag hp]
    simp

theorem allForest_filter_taf_nil (l : List Xml) :
    noTafForest l = true → (allForest l).filter isTaf = [] := by
  induction l using forestRec with
  | hnil => intro _; simp [allForest]
  | hcons t x cs r ihc ihr =>
    intro h
    rw [noTafForest] at h
    simp only [Bool.and_eq_true, Bool.not_eq_true'] at h
    rw [allForest, List.filter_cons]
    have hfi : isTaf (Xml.elem t x cs) = false := by
      simp [isTaf, Xml.tag, h.1.1]
    simp only [hfi, Bool.false_eq_true, if_false, List.filter_append]
    rw [ihc h.1.2, ihr h.2]
    simp

theorem docForest_taf_children (l : List Xml) :
    noTafForest l = true →
      docForest "TAF" l = l.filter (fun c => Xml.tag c == "text") := by
  induction l using forestRec with
  | hnil => intro _; simp [docForest]
  | hcons t x cs r ihc ihr =>
    intro h
    rw [noTafForest] at h
    simp only [Bool.and_eq_true, Bool.not_eq_true'] at h
    rw [docForest, docForest_nil_of_noTaf cs h.1.2 t h.1.1, ihr h.2,
      List.filter_cons]
    cases htx : (t == "text") <;> simp [Xml.tag, htx]

theorem code_matches_doc (l : List Xml) :
    ∀ ptag, (ptag == "TAF") = false → cleanForest l = true →
      flatMapL textChildren ((allForest l).filter isTaf) = docForest ptag l := by
  induction l using forestRec with
  | hnil => intro ptag _ _; simp [allForest, flatMapL, docForest]
  | hcons t x cs r ihc ihr =>
    intro ptag hp hc
    rw [cleanForest] at hc
    simp only [Bool.and_eq_true] at hc
    rw [allForest, docForest, List.filter_cons]
    cases ht : (t == "TAF") with
    | true =>
      rw [if_pos ht] at hc
      have hti : isTaf (Xml.elem t x cs) = true := by simp [isTaf, Xml.tag, ht]
      have ht2 : t = "TAF" := by simpa using ht
      subst ht2
      rw [if_pos hti, List.filter_append, allForest_filter_taf_nil cs hc.1,
        flatMapL]
      simp only [List.nil_append]
      rw [ihr ptag hp hc.2, docForest_taf_children cs hc.1, hp]
      simp [textChildren, Xml.children]
    | false =>
      rw [if_neg (by simp [ht])] at hc
      have hfi : isTaf (Xml.elem t x cs) = false := by simp [isTaf, Xml.tag, ht]
      simp only [hfi, Bool.false_eq_true, if_false, List.filter_append]
      rw [flatMapL_append, ihc t ht hc.1, ihr ptag hp hc.2, hp]
      simp

/-- The code's path evaluation agrees with the document-order reading when
the document root is not itself tagged `TAF` and no `TAF` element is nested
below another. -/
theorem tafTextNodes_eq_docNodes (root : Xml)
    (h1 : (Xml.tag root == "TAF") = false)
    (h2 : cleanForest (Xml.children root) = true) :
    tafTextNodes root = docNodes root := by
  rw [tafTextNodes, descendantsOf, docNodes]
  exact code_matches_doc (Xml.children root) (Xml.tag root) h1 h2

theorem seqOptions_all_some (l : List (Option String))
    (h : ∀ o ∈ l, o.isSome = true) :
    seqOptions l = some (l.map (fun o => o.getD "")) := by
  induction l with
  | nil => simp [seqOptions]
  | cons o r ih =>
    cases o with
    | none => have := h none (by simp); simp at this
    | some s =>
      rw [seqOptions, ih (fun o ho => h o (by simp [ho]))]
      simp

theorem cexTree_map_text :
    (tafTextNodes cexTree).map Xml.text =
      [some "TAF KJFK 211720Z 2118/2224", none] := by
  simp [tafTextNodes, descendantsOf, allForest, flatMapL, textChildren,
    isTaf, Xml.tag, Xml.children, Xml.text, cexTree]

theorem cexTree_taf_raises :
    (getTaf (NetResult.ok "<xml>") (fun _ => some cexTree) "KJFK").1 =
      Except.error PyExn.typeError := by
  rw [getTaf, if_pos (by decide), if_neg (by decide)]
  simp [cexTree_map_text, seqOptions]

/-- Claim C6 counterexample: a well-formed response with two nodes matched
by `.//TAF/text`, the first carrying text, the second an empty `<text/>`
element.  The claim says `get_taf` returns the joined texts; instead the
`"\n".join` raises an uncaught `TypeError` (the list contains `None`). -/
theorem get_taf_textless_node_cex :
    tafTextNodes cexTree ≠ [] ∧
    (getTaf (NetResult.ok "<xml>") (fun _ => some cexTree) "KJFK").1 =
      Except.error PyExn.typeError := by
  refine ⟨?_, cexTree_taf_raises⟩
  intro h
  have hm := cexTree_map_text
  rw [h] at hm
  simp at hm

/-- Claim C6 (amended): for a valid ICAO code and a well-formed response
whose root is not itself tagged `TAF`, whose `TAF` elements are not nested
below one another, and in which at least one node is matched by the path
`.//TAF/text` and every matched node carries text, `get_taf` returns the
texts of the matched nodes, in document order, joined with newline
characters.  (When some matched node carries no text, `get_taf` instead
raises `TypeError`; when `TAF` elements nest, the code's `findall` order can
differ from document order.) -/
theorem get_taf_joins_doc_order (icao body : String)
    (parse : String → Option Xml) (tree : Xml)
    (hic : is_valid_icao icao = true)
    (hb : ¬ pyStrip body = "")
    (hp : parse body = some tree)
    (hroot : (Xml.tag tree == "TAF") = false)
    (hclean : cleanForest (Xml.children tree) = true)
    (hne : docNodes tree ≠ [])
    (htext : ∀ e ∈ docNodes tree, (Xml.text e).isSome = true) :
    (getTaf (NetResult.ok body) parse icao).1 =
      Except.ok (String.intercalate "\n"
        ((docNodes tree).map (fun e => (Xml.text e).getD ""))) := by
  have hd := tafTextNodes_eq_docNodes tree hroot hclean
  have hseq : seqOptions ((docNodes tree).map Xml.text) =
      some (((docNodes tree).map Xml.text).map (fun o => o.getD "")) :=
    seqOptions_all_some _ (by
      intro o ho
      rcases List.mem_map.mp ho with ⟨e, he, rfl⟩
      exact htext e he)
  rw [getTaf, if_pos hic, if_neg hb, hp]
  simp only [hd, hseq, List.map_map]
  rw [if_neg (by simpa using hne)]
  simp [Function.comp_def]

theorem get_taf_joins_doc_order_w :
    (getTaf (NetResult.ok "<xml>") (fun _ => some okTree) "KJFK").1 =
      Except.ok "TAF KJFK 211720Z 2118/2224\nTAF KLGA 211730Z 2118/2224" := by
  have hdn : docNodes okTree =
      [Xml.elem "text" (some "TAF KJFK 211720Z 2118/2224") [],
       Xml.elem "text" (some "TAF KLGA 211730Z 2118/2224") []] := by
    simp [docNodes, docForest, okTree, Xml.tag, Xml.children]
  have h := get_taf_joins_doc_order "KJFK" "<xml>" (fun _ => some okTree) okTree
    (by decide) (by decide) rfl (by decide)
    (by simp [cleanForest, noTafForest, okTree, Xml.children])
    (by rw [hdn]; simp)
    (by rw [hdn]; decide)
  rw [h, hdn]
  rfl

/-- Claim C8 counterexample: with a valid ICAO code and a TAF response that
parses to `cexTree`, the `TypeError` raised inside `get_taf` propagates out
of `get_weather_brief`, so the process does not exit 0. -/
theorem weather_brief_crash_cex :
    getWeatherBrief none NetResult.err (NetResult.ok "<xml>")
      (fun _ => some cexTree) (fun _ => none) NetResult.err "KJFK" =
      Except.error PyExn.typeError := by
  rw [getWeatherBrief]
  simp [cexTree_taf_raises]

/-- Claim C8 (amended): a run of `get_weather_brief` completes normally
(process exit 0) exactly when `get_taf` does not raise; every other stage is
total, and the only raising path in `get_taf` is the `"\n".join` `TypeError`
on a matched `TAF/text` node carrying no text.  In particular invalid input,
network failures, empty bodies, parse errors, decode failures and webhook
failures all still complete. -/
theorem weather_brief_completion_iff (webhook : Option String)
    (mNet tNet : NetResult) (parse : String → Option Xml)
    (dec : String → Option String) (sNet : NetResult) (icao : String) :
    (∃ r, getWeatherBrief webhook mNet tNet parse dec sNet icao = Except.ok r) ↔
      exceptOk (getTaf tNet parse icao).1 = true := by
  cases h : (getTaf tNet parse icao).1 <;> simp [getWeatherBrief, h, exceptOk]

theorem execCall_env (env : AppEnv) (c : Call) : (execCall env c).2 = env := by
  cases c <;> rfl

theorem execCalls_env (env : AppEnv) (cs : List Call) :
    (execCalls env cs).2 = env := by
  induction cs generalizing env with
  | nil => rfl
  | cons c r ih => rw [execCalls, execCall_env]; exact ih env

theorem execCalls_append (env : AppEnv) (l1 l2 : List Call) :
    execCalls env (l1 ++ l2) =
      ((execCalls env l1).1 ++ (execCalls (execCalls env l1).2 l2).1,
       (execCalls (execCalls env l1).2 l2).2) := by
  induction l1 generalizing env with
  | nil => simp [execCalls]
  | cons c r ih => simp [execCalls, ih]

/-- Claim C9: the components are deterministic and stateless.  Running any
sequence of component invocations leaves the module state (the one global,
`SLACK_WEBHOOK_URL`) unchanged, and running the same sequence (same
arguments, same network-response oracles, same environment) twice in a row
produces the identical list of results twice: no state is retained across
calls. -/
theorem components_stateless_deterministic (env : AppEnv) (cs : List Call) :
    (execCalls env cs).2 = env ∧
    (execCalls env (cs ++ cs)).1 =
      (execCalls env cs).1 ++ (execCalls env cs).1 := by
  refine ⟨execCalls_env env cs, ?_⟩
  rw [execCalls_append, execCalls_env]
